import Mathlib

/-!
Verification of the konverse eBPF tracer agent (python sources under
src/ebpf-tools/tracers/) against its natural-language specification.

The relevant user-space code is shallowly embedded below:

* `runner.py`   — tracer supervisor: config loading, launching, monitoring,
  group shutdown.
* `swaphist.py` — swap-fault latency histogram: log2 bucketing (via the BCC
  helper `bpf_log2l` that the embedded C program calls), windowed flush of
  the BPF histogram map, best-effort HTTP delivery.
* `cg_tracer.py` — cgroup create/delete events: byte-field decoding, scope
  filtering by cgroup-path, payload construction.
* `oom_tracer.py` — OOM kill events: byte-field decoding, payload
  construction, best-effort HTTP delivery.

Machine integers are modelled as `Nat` (the kernel fields are unsigned);
Python floats used for wall-clock arithmetic are modelled as `ℚ`;
Python strings are modelled as `List Nat` of code points where the byte
decoding matters and as `String` for closed-set tags; fallible Python code
(statements that can raise) is modelled in `Except Unit`.
-/

/-! ## Generic list and string helpers -/

/-- Code points of a Lean string literal, used to write down the string
constants appearing in the python sources. -/
def codesOf (s : String) : List Nat :=
  s.toList.map Char.toNat

/-- Decimal rendering of a natural number as a list of ASCII code points,
modelling how python interpolates an integer into an f-string. -/
def natDec (n : Nat) : List Nat :=
  (Nat.toDigits 10 n).map Char.toNat

/-- Does the list `l` start with the list `p`?  Models python
`str.startswith` on code-point sequences. -/
def startsWithL (l p : List Nat) : Bool :=
  match l, p with
  | _, [] => true
  | [], _ :: _ => false
  | a :: l, b :: p => a == b && startsWithL l p

/-- Remove the longest run of the character `c` at the end of `l`. -/
def dropTrailing (c : Nat) (l : List Nat) : List Nat :=
  (l.reverse.dropWhile (· == c)).reverse

/-- Python `str.strip(c)` for a single character `c`: remove runs of `c`
from both ends. -/
def stripChar (c : Nat) (l : List Nat) : List Nat :=
  dropTrailing c (l.dropWhile (· == c))

/-- Two-argument `os.path.join` on code-point strings (posixpath semantics:
an absolute second component discards the first). -/
def osPathJoinL (a b : List Nat) : List Nat :=
  if startsWithL b (codesOf "/") then b
  else if a = [] ∨ a.getLast? = some 47 then a ++ b
  else a ++ codesOf "/" ++ b

/-- Two-argument `os.path.join` on Lean strings (posixpath semantics). -/
def osPathJoinS (a b : String) : String :=
  if b.startsWith "/" then b
  else if a = "" ∨ a.endsWith "/" then a ++ b
  else a ++ "/" ++ b

/-! ## Clock converter

Both `cg_tracer.py` and `oom_tracer.py` compute, once at startup,
`boot_time = time.time() - time.monotonic()` and convert each kernel
monotonic timestamp with `event_time = boot_time + (ev.ts_ns / 1e9)`. -/

/-- `boot_time = time.time() - time.monotonic()`, captured once at startup
(wall-clock time minus monotonic time). -/
def bootTimeOf (wallAtStart monoAtStart : ℚ) : ℚ :=
  wallAtStart - monoAtStart

/-- `event_time = boot_time + (ts_ns / 1e9)`: wall-clock time of a kernel
monotonic timestamp given in nanoseconds. -/
def wallClock (bootTime : ℚ) (tsNs : Nat) : ℚ :=
  bootTime + (tsNs : ℚ) / 1000000000

/-! ## Tracer supervisor (`runner.py`) -/

/-- YAML values `yaml.safe_load` can return, at the granularity
`runner.py` distinguishes: a list of tracer names, or anything else
(mapping, string, or null from an empty file). -/
inductive YamlValue
  | yList (items : List String)
  | yDict
  | yStr (s : String)
  | yNull
deriving DecidableEq

/-- The possible states of the configuration source consumed by
`load_config` (`runner.py` lines 18-21): the file may be absent
(`open` raises `FileNotFoundError`), syntactically invalid
(`yaml.safe_load` raises a `YAMLError`), or parse to a YAML value. -/
inductive ConfigSource
  | missingFile
  | unparsableYaml
  | parsed (v : YamlValue)

/-- `load_config` (`runner.py`): `open` + `yaml.safe_load`, with no
exception handling: a missing file or unparsable YAML propagates as an
exception (`Except.error`). -/
def load_config : ConfigSource → Except Unit YamlValue
  | .missingFile => .error ()
  | .unparsableYaml => .error ()
  | .parsed v => .ok v

/-- The `isinstance(cfg, list)` test in `runner.py` line 61. -/
def isListVal : YamlValue → Bool
  | .yList _ => true
  | _ => false

/-- `tracers = cfg if isinstance(cfg, list) else []` (`runner.py` line 61). -/
def tracersFromConfig : YamlValue → List String
  | .yList l => l
  | _ => []

/-- `run_tracers` (`runner.py` lines 24-48): for each tracer name, build
`os.path.join("/tracers", tracer)`; if the path exists, launch the tracer
(collecting its process), else print `Tracer ... not found` and skip it.
`pathExists` abstracts `os.path.exists`.  The returned list is the list of
launched tracer names, in order. -/
def run_tracers (pathExists : String → Bool) (tracer_list : List String) :
    List String :=
  tracer_list.filter fun tracer => pathExists (osPathJoinS "/tracers" tracer)

/-- The startup sequence of `runner.py` `__main__`: load the config
(uncaught exceptions propagate), select the tracer list, launch the
resolvable tracers, and enter the monitoring loop with that roster. -/
def runnerStartup (pathExists : String → Bool) (src : ConfigSource) :
    Except Unit (List String) :=
  (load_config src).map fun cfg => run_tracers pathExists (tracersFromConfig cfg)

/-- State of one supervised tracer process as the supervisor sees it:
`exitCode` is `none` while the process runs (`Popen.poll()` returns
`None`), and `sigint` records whether the process has been sent the
cooperative-cancellation signal. -/
structure ProcState where
  exitCode : Option Int
  sigint : Bool
deriving DecidableEq, Repr

/-- `p.send_signal(signal.SIGINT)`: CPython delivers the signal only when
the process has not already terminated. -/
def send_signal_sigint (p : ProcState) : ProcState :=
  match p.exitCode with
  | none => { p with sigint := true }
  | some _ => p

/-- One `p.wait()` call inside `shutdown`: blocks until the process has
exited.  `oracle` gives the exit code a still-running process eventually
exits with. -/
def waitOne (oracle : ProcState → Int) (p : ProcState) : ProcState :=
  match p.exitCode with
  | none => { p with exitCode := some (oracle p) }
  | some _ => p

/-- `shutdown` (`runner.py` lines 64-78): send SIGINT to every process in
the roster, then wait for every process to terminate, then `exit(0)`.
The result is the final roster together with the supervisor exit code. -/
def shutdown (oracle : ProcState → Int) (procs : List ProcState) :
    List ProcState × Int :=
  ((procs.map send_signal_sigint).map (waitOne oracle), 0)

/-- The `p.poll() is not None` scan of the monitoring loop
(`runner.py` lines 88-102). -/
def anyExited (procs : List ProcState) : Bool :=
  procs.any fun p => p.exitCode.isSome

/-- One iteration of the monitoring loop (`runner.py` lines 88-102): if
any supervised process has exited, run `shutdown` (the supervisor then
exits); otherwise sleep and poll again (`none`). -/
def pollStep (oracle : ProcState → Int) (procs : List ProcState) :
    Option (List ProcState × Int) :=
  if anyExited procs then some (shutdown oracle procs) else none

/-! ## Swap-fault latency histogram (`swaphist.py`)

The embedded C program increments the BPF histogram map with
`dist.increment(bpf_log2l(delta / 1000))`.  `bpf_log2` and `bpf_log2l`
are the BCC helpers (`src/cc/export/helpers.h`) textually included into
that program, embedded here instruction by instruction. -/

/-- The BCC helper `bpf_log2` (unsigned-int binary logarithm by
conditional shifts), straight-line as in the C source. -/
def bpf_log2 (v : Nat) : Nat :=
  let r1 := if 0xFFFF < v then 16 else 0
  let v1 := v >>> r1
  let s2 := if 0xFF < v1 then 8 else 0
  let v2 := v1 >>> s2
  let r2 := r1 ||| s2
  let s3 := if 0xF < v2 then 4 else 0
  let v3 := v2 >>> s3
  let r3 := r2 ||| s3
  let s4 := if 0x3 < v3 then 2 else 0
  let v4 := v3 >>> s4
  let r4 := r3 ||| s4
  r4 ||| (v4 >>> 1)

/-- The BCC helper `bpf_log2l`: `bpf_log2` on the high word plus 33 when
the high word is nonzero, else `bpf_log2` of the low word plus 1. -/
def bpf_log2l (v : Nat) : Nat :=
  let hi := v >>> 32
  if hi ≠ 0 then bpf_log2 hi + 32 + 1
  else bpf_log2 v + 1

/-! ## Window aggregator (`swaphist.py` main loop) -/

/-- The BPF histogram map `dist` (`BPF_HISTOGRAM`, a 64-slot array map):
slot index to sample count. -/
def Accum := Nat → Nat

/-- The map as created (all counts zero) and as left by `dist.clear()`. -/
def emptyAccum : Accum := fun _ => 0

/-- `dist.increment(slot)`: the BPF array-map lookup succeeds only for
slots below 64 (the `BPF_HISTOGRAM` size); an out-of-range slot is a
silent no-op. -/
def increment (acc : Accum) (slot : Nat) : Accum :=
  if slot < 64 then (fun s => if s = slot then acc s + 1 else acc s) else acc

/-- One sample observation: the kernel program runs
`dist.increment(bpf_log2l(delta / 1000))`; `sampleUs = delta / 1000` is
the fault latency in microseconds. -/
def observe (acc : Accum) (sampleUs : Nat) : Accum :=
  increment acc (bpf_log2l sampleUs)

/-- A batch of observations in order. -/
def observeAll (acc : Accum) (samples : List Nat) : Accum :=
  samples.foldl observe acc

/-- One reported histogram bucket (the dict built in `swaphist.py`
lines 92-96). -/
structure Bucket where
  range_start_us : Nat
  range_end_us : Nat
  count : Nat
deriving DecidableEq, Repr

/-- Bucket reported for map slot `slot`: `start_us = 2**slot`,
`end_us = 2**(slot+1) - 1` (`swaphist.py` lines 88-90). -/
def mkBucket (slot cnt : Nat) : Bucket :=
  ⟨2 ^ slot, 2 ^ (slot + 1) - 1, cnt⟩

/-- The flush loop of `swaphist.py` lines 84-96: iterate `dist.items()`
in slot order, skip zero counts, and report the bucket for each
non-empty slot. -/
def flushBuckets (acc : Accum) : List Bucket :=
  (List.range 64).filterMap fun slot =>
    if acc slot = 0 then none else some (mkBucket slot (acc slot))

/-- Insertion into a list sorted by `range_start_us`. -/
def insertBucket (b : Bucket) : List Bucket → List Bucket
  | [] => [b]
  | c :: t =>
    if c.range_start_us ≤ b.range_start_us then c :: insertBucket b t
    else b :: c :: t

/-- `sorted(histogram_buckets, key=lambda x: x["range_start_us"])` of
`swaphist.py` line 109 (the keys are distinct powers of two, so
stability is moot). -/
def sortBuckets : List Bucket → List Bucket
  | [] => []
  | b :: t => insertBucket b (sortBuckets t)

/-- One window flush (`swaphist.py` lines 84-112): build the buckets; if
none is non-empty, deliver nothing for the window (`continue`), else
deliver the sorted bucket list as `latency_distribution_us`. -/
def flushPayload (acc : Accum) : Option (List Bucket) :=
  let bs := flushBuckets acc
  if bs.isEmpty then none else some (sortBuckets bs)

/-- Total count over a snapshot. -/
def snapTotal (bs : List Bucket) : Nat := (bs.map Bucket.count).sum

/-- Total count over the whole accumulator. -/
def accTotal (acc : Accum) : Nat := ((List.range 64).map acc).sum

/-- Operations on the histogram map as the system actually performs them:
kernel-side increments interleave with the two separate user-space steps
of a flush, the `dist.items()` read and the `dist.clear()` reset. -/
inductive FlushOp
  | obs (sampleUs : Nat)
  | readItems
  | clearMap
deriving DecidableEq

/-- State of the window machinery: the live BPF map and the snapshots
flushed so far (one list of buckets per completed window). -/
structure HistState where
  acc : Accum
  snaps : List (List Bucket)

/-- Interleaving semantics of `swaphist.py`: an increment can land between
`dist.items()` and `dist.clear()`. -/
def histStep (st : HistState) : FlushOp → HistState
  | .obs s => ⟨observe st.acc s, st.snaps⟩
  | .readItems => ⟨st.acc, st.snaps ++ [flushBuckets st.acc]⟩
  | .clearMap => ⟨emptyAccum, st.snaps⟩

/-- Run a sequence of operations from the initial (empty) state. -/
def histRun (ops : List FlushOp) : HistState :=
  ops.foldl histStep ⟨emptyAccum, []⟩

/-- Total count delivered over all snapshots. -/
def deliveredTotal (st : HistState) : Nat := (st.snaps.map snapTotal).sum

/-- Number of samples observed in an operation sequence. -/
def obsCount : List FlushOp → Nat
  | [] => 0
  | .obs _ :: t => obsCount t + 1
  | .readItems :: t => obsCount t
  | .clearMap :: t => obsCount t

/-- The aggregator with the flush taken as one atomic snapshot-and-reset
step, which is what the specification stipulates. -/
inductive AggOp
  | obs (sampleUs : Nat)
  | flush
deriving DecidableEq

/-- Atomic-flush semantics: `flush` snapshots and resets in one step. -/
def aggStep (st : HistState) : AggOp → HistState
  | .obs s => ⟨observe st.acc s, st.snaps⟩
  | .flush => ⟨emptyAccum, st.snaps ++ [flushBuckets st.acc]⟩

/-- Run a sequence of atomic-flush operations from the empty state. -/
def aggRun (ops : List AggOp) : HistState := ops.foldl aggStep ⟨emptyAccum, []⟩

/-- Number of samples observed in an atomic-flush operation sequence. -/
def aggObsCount : List AggOp → Nat
  | [] => 0
  | .obs _ :: t => aggObsCount t + 1
  | .flush :: t => aggObsCount t

/-- An operation carries a sample small enough for the 64-slot map. -/
def opSmall : AggOp → Bool
  | .obs s => decide (s < 2 ^ 63)
  | .flush => true

/-! ## Delivery client (`swaphist.py` lines 114-122, `oom_tracer.py`
lines 101-105) -/

/-- Outcome of one `requests.post(...)` call: an HTTP response with some
status code (requests does not raise on non-2xx statuses), or a raised
`requests.exceptions.RequestException` (which covers connection errors
and timeouts). -/
inductive PostOutcome
  | resp (status : Nat)
  | requestExn
deriving DecidableEq

/-- Observable effect of one delivery attempt on the calling pipeline. -/
structure DeliveryEffect where
  raisedToCaller : Bool
  loggedSuccess : Bool
  loggedFailure : Bool
  retries : Nat
  queued : Bool
deriving DecidableEq, Repr

/-- `swaphist.py` lines 114-122: `requests.post(..., timeout=5)` inside
`try`, printing a success line on return and an error line on
`RequestException`.  The status code of a response is never inspected. -/
def swaphistDeliver : PostOutcome → DeliveryEffect
  | .resp _ => ⟨false, true, false, 0, false⟩
  | .requestExn => ⟨false, false, true, 0, false⟩

/-- The `timeout=` argument of `requests.post` in `swaphist.py`. -/
def swaphistTimeoutSeconds : Nat := 5

/-- `oom_tracer.py` lines 101-105: `requests.post(..., timeout=5)` inside
`try`, printing an error line on any `Exception`; nothing at all is
logged when a response comes back, whatever its status. -/
def oomDeliver : PostOutcome → DeliveryEffect
  | .resp _ => ⟨false, false, false, 0, false⟩
  | .requestExn => ⟨false, false, true, 0, false⟩

/-- The `timeout=` argument of `requests.post` in `oom_tracer.py`. -/
def oomTimeoutSeconds : Nat := 5

/-! ## Byte-field decoding (`bytes.decode(errors="ignore")`) -/

/-- Is `b` a UTF-8 continuation byte? -/
def isCont (b : Nat) : Bool := 0x80 ≤ b && b ≤ 0xBF

/-- Allowed second byte of a three-byte sequence with lead byte `b`
(excludes overlong encodings and surrogates, as CPython does). -/
def cont2ok (b b2 : Nat) : Bool :=
  if b = 0xE0 then 0xA0 ≤ b2 && b2 ≤ 0xBF
  else if b = 0xED then 0x80 ≤ b2 && b2 ≤ 0x9F
  else isCont b2

/-- Allowed second byte of a four-byte sequence with lead byte `b`. -/
def cont3ok (b b2 : Nat) : Bool :=
  if b = 0xF0 then 0x90 ≤ b2 && b2 ≤ 0xBF
  else if b = 0xF4 then 0x80 ≤ b2 && b2 ≤ 0x8F
  else isCont b2

/-- UTF-8 decoding of a byte list into code points, with a flag recording
whether any ill-formed sequence was met, in the manner of python
`bytes.decode` with `errors="ignore"`: an ill-formed sequence is skipped
(its lead byte dropped and decoding resumed at the next byte) and
decoding continues; the exact resynchronization point can differ from
CPython only in which malformed bytes are dropped, never on well-formed
input or on totality.  The fuel argument (instantiated with the input
length, which each step strictly exceeds consuming at least one byte) is
only a structural-termination device. -/
def utf8IgnoreAux : Nat → List Nat → List Nat × Bool
  | 0, _ => ([], false)
  | _ + 1, [] => ([], false)
  | fuel + 1, b :: rest =>
    if b < 0x80 then
      let r := utf8IgnoreAux fuel rest
      (b :: r.1, r.2)
    else if 0xC2 ≤ b && b ≤ 0xDF then
      match rest with
      | b2 :: rest2 =>
        if isCont b2 then
          let r := utf8IgnoreAux fuel rest2
          (((b - 0xC0) * 0x40 + (b2 - 0x80)) :: r.1, r.2)
        else
          let r := utf8IgnoreAux fuel rest
          (r.1, true)
      | [] => ([], true)
    else if 0xE0 ≤ b && b ≤ 0xEF then
      match rest with
      | b2 :: b3 :: rest3 =>
        if cont2ok b b2 && isCont b3 then
          let r := utf8IgnoreAux fuel rest3
          (((b - 0xE0) * 0x1000 + (b2 - 0x80) * 0x40 + (b3 - 0x80)) :: r.1,
            r.2)
        else
          let r := utf8IgnoreAux fuel rest
          (r.1, true)
      | _ =>
        let r := utf8IgnoreAux fuel rest
        (r.1, true)
    else if 0xF0 ≤ b && b ≤ 0xF4 then
      match rest with
      | b2 :: b3 :: b4 :: rest4 =>
        if cont3ok b b2 && isCont b3 && isCont b4 then
          let r := utf8IgnoreAux fuel rest4
          (((b - 0xF0) * 0x40000 + (b2 - 0x80) * 0x1000
            + (b3 - 0x80) * 0x40 + (b4 - 0x80)) :: r.1, r.2)
        else
          let r := utf8IgnoreAux fuel rest
          (r.1, true)
      | _ =>
        let r := utf8IgnoreAux fuel rest
        (r.1, true)
    else
      let r := utf8IgnoreAux fuel rest
      (r.1, true)

/-- Decode a whole byte list (fuel instantiated with the length). -/
def utf8Ignore (bs : List Nat) : List Nat × Bool :=
  utf8IgnoreAux bs.length bs

/-- python `bytes.decode("utf-8", errors=...)`: with `errors="ignore"` it
always returns the decoded code points; strict mode raises
`UnicodeDecodeError` on ill-formed input (`Except.error`). -/
def pyBytesDecode (ignoreErrors : Bool) (bs : List Nat) :
    Except Unit (List Nat) :=
  if (utf8Ignore bs).2 && !ignoreErrors then Except.error ()
  else Except.ok (utf8Ignore bs).1

/-! ## Event normalizer: cgroup tracer (`cg_tracer.py`) -/

/-- Raw event from the cgroup tracepoints: `struct data_t` with the
fixed-size `char path[256]` carried as raw bytes (`type` is 0 for
`cgroup_mkdir`, 1 for `cgroup_rmdir`). -/
structure CgRawEvent where
  ts_ns : Nat
  type : Nat
  root : Nat
  level : Nat
  id : Nat
  path : List Nat
deriving DecidableEq, Repr

/-- `ev.path.decode(errors="ignore").strip("\x00")` — `cg_tracer.py`
line 78. -/
def cgDecodePath (bs : List Nat) : List Nat :=
  stripChar 0 (utf8Ignore bs).1

/-- The same decode threaded through `Except`, to state that it cannot
raise. -/
def cgDecodePathE (bs : List Nat) : Except Unit (List Nat) :=
  (pyBytesDecode true bs).map (stripChar 0)

/-- Default of the `CGROOT` environment option. -/
def defaultCgroot : List Nat := codesOf "/sys/fs/cgroup"

/-- Default of the `K8S_SLICE` environment option. -/
def defaultKubeSlice : List Nat := codesOf "kubepods.slice"

/-- `KUBE_SLICE_CGROUP = os.path.join(CGROOT, KUBE_SLICE)` —
`cg_tracer.py` line 18. -/
def kubeSliceCgroup (cgroot slice : List Nat) : List Nat :=
  osPathJoinL cgroot slice

/-- The payload dict built by `submit` in `cg_tracer.py` lines 92-100
(the `ts` value is kept as the numeric `event_time`; its `strftime`
rendering is outside the model). -/
structure CgPayload where
  event_time : ℚ
  type : String
  cgroup_path : List Nat
  pid : Nat
  comm : String
  reason : List Nat
deriving DecidableEq

/-- What `submit` does with one raw event: drop it (scope filter), or
produce a payload; `postedToCollector` records whether the payload was
sent to the collector by `requests.post`. -/
inductive CgAction
  | drop
  | output (p : CgPayload) (postedToCollector : Bool)
deriving DecidableEq

/-- The f-string reason of `cg_tracer.py` lines 82-86. -/
def cgReason (root idv level : Nat) (path : List Nat) (created : Bool) :
    List Nat :=
  codesOf "root=" ++ natDec root ++ codesOf " id=" ++ natDec idv
    ++ codesOf " level=" ++ natDec level ++ codesOf " path=" ++ path
    ++ (if created then codesOf " started" else codesOf " exited")

/-- `submit` of `cg_tracer.py` lines 75-103: decode and strip the path;
return (drop) unless it starts with the configured scope `KUBE_SLICE_CGROUP`;
otherwise build the payload.  In the source the `requests.post(COLLECTOR,
json=payload, timeout=0.5)` line is commented out and only
`print("POSTING: ...")` runs, so the payload is never sent to the
collector: `postedToCollector` is `false`. -/
def cgSubmit (scope : List Nat) (bootTime : ℚ) (ev : CgRawEvent) :
    CgAction :=
  let cgpath := cgDecodePath ev.path
  if !(startsWithL cgpath scope) then CgAction.drop
  else
    CgAction.output
      { event_time := wallClock bootTime ev.ts_ns
        type := if ev.type = 0 then "container_create" else "container_delete"
        cgroup_path := cgpath
        pid := ev.id
        comm := "unknown"
        reason := cgReason ev.root ev.id ev.level cgpath (ev.type == 0) }
      false

/-! ## Event normalizer: OOM tracer (`oom_tracer.py`) -/

/-- Raw event from the `oom_kill_process` kprobe: `struct data_t` with
the fixed-size `char fcomm[16]`, `char tcomm[16]`, `char nsproxy[16]`
carried as raw bytes. -/
structure OomRawEvent where
  ts_ns : Nat
  fpid : Nat
  fcomm : List Nat
  tpid : Nat
  tcomm : List Nat
  nsproxy : List Nat
deriving DecidableEq, Repr

/-- The payload dict built by `submit` in `oom_tracer.py` lines 89-100
(the `ts` value is kept as the numeric `event_time`). -/
structure OomPayload where
  event_time : ℚ
  type : String
  container_id : List Nat
  cgroup_path : List Nat
  victim_pid : Nat
  victim_comm : List Nat
  trigger_pid : Nat
  trigger_comm : List Nat
deriving DecidableEq

/-- The printf-style reason of `oom_tracer.py` lines 81-85:
`"[%s] oom_kill_process: killed by %d (%s)"`. -/
def oomReason (nsproxy fcomm : List Nat) (fpid : Nat) :
    Except Unit (List Nat) := do
  let ns ← pyBytesDecode true nsproxy
  let fc ← pyBytesDecode true fcomm
  return codesOf "[" ++ stripChar 0 ns
    ++ codesOf "] oom_kill_process: killed by " ++ natDec fpid
    ++ codesOf " (" ++ stripChar 0 fc ++ codesOf ")"

/-- `submit` of `oom_tracer.py` lines 79-105: resolve the victim cgroup
path (`cgpathOf` abstracts `pid_to_cgpath`, which itself catches
`FileNotFoundError` and returns the empty string), build the reason,
decode and strip each byte field with `errors="ignore"`, and build the
payload.  Every fallible decode is threaded through `Except`. -/
def oomSubmit (bootTime : ℚ) (cgpathOf : Nat → List Nat)
    (ev : OomRawEvent) : Except Unit OomPayload := do
  let _reason ← oomReason ev.nsproxy ev.fcomm ev.fpid
  let nsid ← pyBytesDecode true ev.nsproxy
  let vcomm ← pyBytesDecode true ev.tcomm
  let fcomm2 ← pyBytesDecode true ev.fcomm
  return { event_time := wallClock bootTime ev.ts_ns
           type := "oom"
           container_id := stripChar 0 nsid
           cgroup_path := cgpathOf ev.tpid
           victim_pid := ev.tpid
           victim_comm := stripChar 0 vcomm
           trigger_pid := ev.fpid
           trigger_comm := stripChar 0 fcomm2 }

/-- A concrete in-scope raw cgroup event: a `cgroup_mkdir` under the
default scope `/sys/fs/cgroup/kubepods.slice`, with trailing NUL padding
in the fixed-size path field. -/
def c4FailingEvent : CgRawEvent :=
  { ts_ns := 123456789
    type := 0
    root := 1
    level := 3
    id := 42
    path := codesOf "/sys/fs/cgroup/kubepods.slice/pod-abc" ++ [0, 0] }

theorem head?_dropWhile_ne {p : Nat → Bool} {l : List Nat} {a : Nat}
    (h : (l.dropWhile p).head? = some a) : p a = false := by
  induction l with
  | nil => simp at h
  | cons b t ih =>
    rw [List.dropWhile_cons] at h
    cases hpb : p b with
    | true => rw [if_pos hpb] at h; exact ih h
    | false =>
      rw [if_neg (by simp [hpb])] at h
      simp only [List.head?_cons, Option.some.injEq] at h
      subst h
      exact hpb

theorem getLast?_reverse_eq_head? (l : List Nat) :
    l.reverse.getLast? = l.head? := by
  cases l with
  | nil => rfl
  | cons a t => rw [List.reverse_cons, List.getLast?_concat]; rfl

/-- The result of `dropTrailing c` never ends with `c`. -/
theorem dropTrailing_getLast?_ne (c : Nat) (l : List Nat) :
    dropTrailing c l ≠ [] → (dropTrailing c l).getLast? ≠ some c := by
  intro _ h
  rw [dropTrailing, getLast?_reverse_eq_head?] at h
  simpa using head?_dropWhile_ne h

/-! ## Claim C1 -/

/-- C1: if any supervised process has exited, the next poll of the
monitoring loop (hence within one poll interval) triggers `shutdown`;
in `shutdown` every still-running process is sent SIGINT, and the
supervisor exit (`exit(0)`, the second component) is produced only after
`wait` has seen every process exit: every process in the final roster has
an exit code. -/
theorem c1_group_shutdown (oracle : ProcState → Int) (procs : List ProcState)
    (h : anyExited procs = true) :
    pollStep oracle procs = some (shutdown oracle procs) ∧
    (shutdown oracle procs).2 = 0 ∧
    (shutdown oracle procs).1 =
      procs.map (fun p => waitOne oracle (send_signal_sigint p)) ∧
    (∀ p ∈ procs, p.exitCode = none →
      (waitOne oracle (send_signal_sigint p)).sigint = true) ∧
    (∀ p ∈ procs, (waitOne oracle (send_signal_sigint p)).exitCode.isSome = true) := by
  refine ⟨by simp [pollStep, h], rfl, by simp [shutdown], ?_, ?_⟩
  · intro p _ hrun
    simp [send_signal_sigint, waitOne, hrun]
  · intro p _
    cases hc : p.exitCode with
    | none => simp [send_signal_sigint, waitOne, hc]
    | some c => simp [send_signal_sigint, waitOne, hc]

/-- Witness for C1 at a concrete roster: the first process has exited with
code 1, the second still runs; the poll triggers shutdown, the second
process gets SIGINT, and both have exited before the supervisor exits. -/
theorem c1_group_shutdown_witness :
    anyExited [⟨some 1, false⟩, ⟨none, false⟩] = true ∧
    pollStep (fun _ => 0) [⟨some 1, false⟩, ⟨none, false⟩] =
      some (shutdown (fun _ => 0) [⟨some 1, false⟩, ⟨none, false⟩]) ∧
    (waitOne (fun _ => 0) (send_signal_sigint ⟨none, false⟩)).sigint = true ∧
    (waitOne (fun _ => 0) (send_signal_sigint ⟨none, false⟩)).exitCode.isSome = true := by
  have h := c1_group_shutdown (fun _ => 0) [⟨some 1, false⟩, ⟨none, false⟩] (by decide)
  exact ⟨by decide, h.1,
    h.2.2.2.1 ⟨none, false⟩ (by simp) rfl,
    h.2.2.2.2 ⟨none, false⟩ (by simp)⟩

/-! ## Claim C7 -/

/-- C7 counterexample: the claim says configuration errors are never fatal
for the whole group, but a missing config file makes `load_config` raise
`FileNotFoundError`, which nothing in `runner.py` catches: startup fails
before any tracer is launched. -/
theorem c7_missing_config_counterexample :
    runnerStartup (fun _ => true) ConfigSource.missingFile = Except.error () := by
  rfl

/-- C7 (amended): when the configuration file loads and parses to a list,
a tracer whose executable path does not exist is only skipped while every
tracer whose path resolves is launched, and startup succeeds; but a
missing or unparsable configuration file raises out of `load_config` and
is fatal for the whole supervisor. -/
theorem c7_config_errors (pathExists : String → Bool) (ts : List String) :
    runnerStartup pathExists (ConfigSource.parsed (YamlValue.yList ts)) =
      Except.ok (run_tracers pathExists ts) ∧
    (∀ t ∈ ts, pathExists (osPathJoinS "/tracers" t) = true →
      t ∈ run_tracers pathExists ts) ∧
    (∀ t, pathExists (osPathJoinS "/tracers" t) = false →
      t ∉ run_tracers pathExists ts) ∧
    runnerStartup pathExists ConfigSource.missingFile = Except.error () ∧
    runnerStartup pathExists ConfigSource.unparsableYaml = Except.error () := by
  refine ⟨rfl, ?_, ?_, rfl, rfl⟩
  · intro t ht hres
    simpa [run_tracers, List.mem_filter] using ⟨ht, hres⟩
  · intro t hres hmem
    rw [run_tracers, List.mem_filter] at hmem
    rw [hmem.2] at hres
    cases hres

/-- Witness for C7 at a concrete group `["a", "b"]`: when every path
resolves both are launched and startup succeeds; when no path resolves,
`b` is skipped; a missing config file is fatal. -/
theorem c7_config_errors_witness :
    runnerStartup (fun _ => true)
        (ConfigSource.parsed (YamlValue.yList ["a", "b"])) =
      Except.ok ["a", "b"] ∧
    "a" ∈ run_tracers (fun _ => true) ["a", "b"] ∧
    "b" ∉ run_tracers (fun _ => false) ["a", "b"] ∧
    runnerStartup (fun _ => true) ConfigSource.missingFile = Except.error () := by
  have h1 := c7_config_errors (fun _ => true) ["a", "b"]
  have h2 := c7_config_errors (fun _ => false) ["a", "b"]
  refine ⟨by rw [h1.1]; rfl, ?_, ?_, h1.2.2.2.1⟩
  · exact h1.2.1 "a" (by simp) rfl
  · exact h2.2.2.1 "b" rfl

/-! ## Claim C10 -/

/-- C10: if the loaded configuration parses to any value that is not a
list (a mapping, a string, or null from an empty file), `runner.py`
line 61 selects the empty tracer list: zero tracers are launched and the
supervisor enters its monitoring loop with an empty roster instead of
failing. -/
theorem c10_nonlist_config (pathExists : String → Bool) (v : YamlValue)
    (h : isListVal v = false) :
    runnerStartup pathExists (ConfigSource.parsed v) = Except.ok [] := by
  cases v with
  | yList l => cases h
  | yDict => rfl
  | yStr s => rfl
  | yNull => rfl

/-- Witness for C10 at the three concrete non-list shapes named by the
claim: a mapping, a string, and null. -/
theorem c10_nonlist_config_witness :
    runnerStartup (fun _ => true) (ConfigSource.parsed YamlValue.yDict) =
      Except.ok [] ∧
    runnerStartup (fun _ => true) (ConfigSource.parsed (YamlValue.yStr "oops")) =
      Except.ok [] ∧
    runnerStartup (fun _ => true) (ConfigSource.parsed YamlValue.yNull) =
      Except.ok [] :=
  ⟨c10_nonlist_config _ _ rfl, c10_nonlist_config _ _ rfl,
    c10_nonlist_config _ _ rfl⟩

/-! ## Claim C6 -/

/-- C6: clock conversion is the fixed affine map
`wallClock(t) = offset + t` (nanoseconds scaled to seconds) with
`offset = wall-clock at startup - monotonic at startup` captured once,
and it is order-preserving: `t1 < t2` implies
`wallClock(t1) ≤ wallClock(t2)`. -/
theorem c6_clock_conversion (wallAtStart monoAtStart : ℚ) :
    (∀ t : Nat, wallClock (bootTimeOf wallAtStart monoAtStart) t =
      (wallAtStart - monoAtStart) + (t : ℚ) / 1000000000) ∧
    (∀ t1 t2 : Nat, t1 < t2 →
      wallClock (bootTimeOf wallAtStart monoAtStart) t1 ≤
        wallClock (bootTimeOf wallAtStart monoAtStart) t2) := by
  refine ⟨fun t => rfl, fun t1 t2 h => ?_⟩
  have h12 : (t1 : ℚ) ≤ (t2 : ℚ) := by exact_mod_cast Nat.le_of_lt h
  unfold wallClock
  gcongr

/-- Witness for C6 at concrete startup clocks and timestamps. -/
theorem c6_clock_conversion_witness :
    wallClock (bootTimeOf 1000 3) 2000000000 = (1000 - 3) + 2 ∧
    wallClock (bootTimeOf 1000 3) 1500000000 ≤
      wallClock (bootTimeOf 1000 3) 2000000000 := by
  have h := c6_clock_conversion 1000 3
  refine ⟨?_, h.2 1500000000 2000000000 (by norm_num)⟩
  rw [h.1 2000000000]
  norm_num

theorem log2_div_two {v : Nat} (h : 2 ≤ v) :
    Nat.log2 (v / 2) + 1 = Nat.log2 v := by
  rw [Nat.log2_eq_log_two, Nat.log2_eq_log_two, Nat.log_div_base]
  have hp : 0 < Nat.log 2 v := Nat.log_pos (by norm_num) h
  omega

theorem log2_shiftRight (k : Nat) :
    ∀ v : Nat, 2 ^ k ≤ v → Nat.log2 (v >>> k) + k = Nat.log2 v := by
  induction k with
  | zero => intro v _; simp
  | succ k ih =>
    intro v hv
    have h2pow : (2 : Nat) ≤ 2 ^ (k + 1) := by
      calc (2 : Nat) = 2 ^ 1 := rfl
      _ ≤ 2 ^ (k + 1) := Nat.pow_le_pow_right (by norm_num) (by omega)
    have h2 : 2 ≤ v := le_trans h2pow hv
    have hdiv : 2 ^ k ≤ v / 2 := by
      rw [Nat.le_div_iff_mul_le (by norm_num)]
      rw [pow_succ] at hv
      exact hv
    have e1 : v >>> (k + 1) = (v / 2) >>> k := by
      rw [Nat.shiftRight_eq_div_pow, Nat.shiftRight_eq_div_pow,
        Nat.div_div_eq_div_mul, pow_succ']
    rw [e1]
    have hih := ih (v / 2) hdiv
    have hd2 := log2_div_two h2
    omega

theorem log2_eq_of {n k : Nat} (h1 : 2 ^ k ≤ n) (h2 : n < 2 ^ (k + 1)) :
    Nat.log2 n = k := by
  have hn : n ≠ 0 := by
    have hp : 0 < 2 ^ k := Nat.pos_pow_of_pos k (by norm_num)
    omega
  have hl := (Nat.le_log2 hn).mpr h1
  have hu := (Nat.log2_lt hn).mpr h2
  omega

/-- Binary logarithm of a number below 4 coincides with a right shift by
one, the final step of `bpf_log2`. -/
theorem log2_small {w : Nat} (hw : w ≤ 3) : Nat.log2 w = w >>> 1 := by
  interval_cases w
  · rw [Nat.log2_zero]; decide
  · rw [log2_eq_of (k := 0) (by norm_num) (by norm_num)]; decide
  · rw [log2_eq_of (k := 1) (by norm_num) (by norm_num)]; decide
  · rw [log2_eq_of (k := 1) (by norm_num) (by norm_num)]; decide

/-- One conditional-shift step of `bpf_log2`: the shift amount is `0` or
`k`, the value stays positive, drops below `2 ^ k`, and the shift amount
is transferred onto the binary logarithm. -/
theorem bpf_log2_step (k t v : Nat) (ht : t = 2 ^ k - 1) (h1 : 1 ≤ v)
    (hb : v < 2 ^ k * 2 ^ k) :
    ((if t < v then k else 0) = 0 ∨ (if t < v then k else 0) = k) ∧
    1 ≤ v >>> (if t < v then k else 0) ∧
    v >>> (if t < v then k else 0) < 2 ^ k ∧
    Nat.log2 (v >>> (if t < v then k else 0)) + (if t < v then k else 0)
      = Nat.log2 v := by
  have hkpos : 0 < 2 ^ k := Nat.pos_pow_of_pos k (by norm_num)
  by_cases hc : t < v
  · rw [if_pos hc]
    have hle : 2 ^ k ≤ v := by omega
    refine ⟨Or.inr rfl, ?_, ?_, log2_shiftRight k v hle⟩
    · rw [Nat.shiftRight_eq_div_pow]
      exact (Nat.one_le_div_iff hkpos).mpr hle
    · rw [Nat.shiftRight_eq_div_pow]
      exact (Nat.div_lt_iff_lt_mul hkpos).mpr hb
  · rw [if_neg hc]
    have hlt : v < 2 ^ k := by omega
    exact ⟨Or.inl rfl, by simpa using h1, by simpa using hlt, by simp⟩

/-- The bitwise-or accumulation at the end of `bpf_log2` is plain addition
for the shift amounts that can actually occur. -/
theorem bpf_or_finish (r1 s2 s3 s4 w : Nat)
    (h1 : r1 = 0 ∨ r1 = 16) (h2 : s2 = 0 ∨ s2 = 8) (h3 : s3 = 0 ∨ s3 = 4)
    (h4 : s4 = 0 ∨ s4 = 2) (hw : w ≤ 3) :
    (((r1 ||| s2) ||| s3) ||| s4) ||| (w >>> 1)
      = r1 + s2 + s3 + s4 + (w >>> 1) := by
  interval_cases w <;> rcases h1 with rfl | rfl <;> rcases h2 with rfl | rfl <;>
    rcases h3 with rfl | rfl <;> rcases h4 with rfl | rfl <;> decide

/-- The BCC shift cascade computes the binary logarithm on the 32-bit
range (this is the known BCC convention: `bpf_log2l` then reports
`log2 + 1`). -/
theorem bpf_log2_eq_log2 (v : Nat) (h1 : 1 ≤ v) (h2 : v < 2 ^ 32) :
    bpf_log2 v = Nat.log2 v := by
  obtain ⟨ha0, ha1, ha2, ha3⟩ := bpf_log2_step 16 0xFFFF v (by norm_num) h1
    (by norm_num at h2 ⊢; exact h2)
  obtain ⟨hb0, hb1, hb2, hb3⟩ := bpf_log2_step 8 0xFF _ (by norm_num) ha1
    (by norm_num at ha2 ⊢; exact ha2)
  obtain ⟨hc0, hc1, hc2, hc3⟩ := bpf_log2_step 4 0xF _ (by norm_num) hb1
    (by norm_num at hb2 ⊢; exact hb2)
  obtain ⟨hd0, hd1, hd2, hd3⟩ := bpf_log2_step 2 0x3 _ (by norm_num) hc1
    (by norm_num at hc2 ⊢; exact hc2)
  norm_num at hd2
  show (((_ ||| _) ||| _) ||| _) ||| (_ >>> 1) = Nat.log2 v
  rw [bpf_or_finish _ _ _ _ _ ha0 hb0 hc0 hd0 (by omega)]
  rw [← log2_small (by omega : _ ≤ 3)]
  omega

/-- `bpf_log2l` attributes a positive 64-bit value `v` to slot
`floor(log2 v) + 1`. -/
theorem bpf_log2l_eq (v : Nat) (h1 : 1 ≤ v) (h2 : v < 2 ^ 64) :
    bpf_log2l v = Nat.log2 v + 1 := by
  show (if v >>> 32 ≠ 0 then bpf_log2 (v >>> 32) + 32 + 1 else bpf_log2 v + 1)
    = Nat.log2 v + 1
  by_cases hh : v >>> 32 = 0
  · rw [if_neg (by simpa using hh)]
    have hv32 : v < 2 ^ 32 := by
      rw [Nat.shiftRight_eq_div_pow] at hh
      have := (Nat.div_eq_zero_iff (by norm_num : 0 < 2 ^ 32)).mp hh
      exact this
    rw [bpf_log2_eq_log2 v h1 hv32]
  · rw [if_pos hh]
    have hhi1 : 1 ≤ v >>> 32 := Nat.pos_of_ne_zero hh
    have hhi2 : v >>> 32 < 2 ^ 32 := by
      rw [Nat.shiftRight_eq_div_pow]
      rw [Nat.div_lt_iff_lt_mul (by norm_num : 0 < 2 ^ 32)]
      norm_num at h2 ⊢
      exact h2
    have h32 : 2 ^ 32 ≤ v := by
      rw [Nat.shiftRight_eq_div_pow] at hhi1
      exact (Nat.one_le_div_iff (by norm_num)).mp hhi1
    have hsh := log2_shiftRight 32 v h32
    rw [bpf_log2_eq_log2 _ hhi1 hhi2]
    omega

theorem sum_filterMap_buckets (acc : Accum) (L : List Nat) :
    ((L.filterMap fun slot => if acc slot = 0 then none
        else some (mkBucket slot (acc slot))).map Bucket.count).sum
      = (L.map acc).sum := by
  induction L with
  | nil => rfl
  | cons a t ih =>
    simp only [List.filterMap_cons]
    by_cases h : acc a = 0
    · rw [if_pos h]
      simp only [List.map_cons, List.sum_cons, ih, h]
      omega
    · rw [if_neg h]
      simp only [List.map_cons, List.sum_cons, ih]
      rfl

/-- The flushed snapshot counts exactly what the accumulator held. -/
theorem snapTotal_flushBuckets (acc : Accum) :
    snapTotal (flushBuckets acc) = accTotal acc :=
  sum_filterMap_buckets acc (List.range 64)

theorem sum_map_update_not_mem (acc : Accum) (slot : Nat) :
    ∀ L : List Nat, slot ∉ L →
    (L.map fun s => if s = slot then acc s + 1 else acc s).sum
      = (L.map acc).sum := by
  intro L
  induction L with
  | nil => intro _; rfl
  | cons a t ih =>
    intro hs
    rw [List.mem_cons] at hs
    push_neg at hs
    simp only [List.map_cons, List.sum_cons, ih hs.2,
      if_neg (Ne.symm hs.1)]

theorem sum_map_update_mem (acc : Accum) (slot : Nat) :
    ∀ L : List Nat, L.Nodup → slot ∈ L →
    (L.map fun s => if s = slot then acc s + 1 else acc s).sum
      = (L.map acc).sum + 1 := by
  intro L
  induction L with
  | nil => intro _ hs; cases hs
  | cons a t ih =>
    intro hnd hs
    rw [List.nodup_cons] at hnd
    simp only [List.map_cons, List.sum_cons]
    by_cases h : a = slot
    · subst h
      rw [if_pos rfl, sum_map_update_not_mem acc a t hnd.1]
      omega
    · rw [if_neg h]
      rcases List.mem_cons.mp hs with he | ht
      · exact absurd he.symm h
      rw [ih hnd.2 ht]
      omega

theorem accTotal_increment (acc : Accum) (slot : Nat) (h : slot < 64) :
    accTotal (increment acc slot) = accTotal acc + 1 := by
  rw [accTotal, increment, if_pos h,
    sum_map_update_mem acc slot (List.range 64) (List.nodup_range 64)
      (List.mem_range.mpr h)]
  rfl

/-- A microsecond sample below `2 ^ 63` lands in a valid map slot. -/
theorem slot_lt_64 (s : Nat) (h : s < 2 ^ 63) : bpf_log2l s < 64 := by
  rcases Nat.eq_zero_or_pos s with rfl | hs
  · decide
  · rw [bpf_log2l_eq s hs (lt_trans h (by norm_num))]
    have hlog := (Nat.log2_lt (by omega)).mpr h
    omega

theorem accTotal_observe (acc : Accum) (s : Nat) (h : s < 2 ^ 63) :
    accTotal (observe acc s) = accTotal acc + 1 :=
  accTotal_increment acc _ (slot_lt_64 s h)

theorem accTotal_emptyAccum : accTotal emptyAccum = 0 := by decide

theorem accTotal_observeAll : ∀ (samples : List Nat) (acc : Accum),
    (∀ s ∈ samples, s < 2 ^ 63) →
    accTotal (observeAll acc samples) = accTotal acc + samples.length := by
  intro samples
  induction samples with
  | nil => intro acc _; simp [observeAll]
  | cons a t ih =>
    intro acc h
    rw [observeAll, List.foldl_cons]
    have ht := ih (observe acc a) (fun s hs => h s (List.mem_cons_of_mem _ hs))
    rw [observeAll] at ht
    rw [ht, accTotal_observe acc a (h a (List.mem_cons_self _ _))]
    rw [List.length_cons]
    omega

theorem agg_conservation : ∀ (ops : List AggOp) (st : HistState),
    (∀ op ∈ ops, opSmall op = true) →
    deliveredTotal (ops.foldl aggStep st) + accTotal (ops.foldl aggStep st).acc
      = (deliveredTotal st + accTotal st.acc) + aggObsCount ops := by
  intro ops
  induction ops with
  | nil =>
    intro st _
    simp [aggObsCount]
  | cons op t ih =>
    intro st h
    rw [List.foldl_cons,
      ih (aggStep st op) (fun o ho => h o (List.mem_cons_of_mem _ ho))]
    have hop := h op (List.mem_cons_self _ _)
    cases op with
    | obs s =>
      have hs : s < 2 ^ 63 := of_decide_eq_true hop
      simp only [aggStep, deliveredTotal, aggObsCount,
        accTotal_observe st.acc s hs]
      omega
    | flush =>
      simp only [aggStep, deliveredTotal, aggObsCount,
        List.map_append, List.sum_append, snapTotal_flushBuckets,
        accTotal_emptyAccum, List.map_cons, List.map_nil, List.sum_cons,
        List.sum_nil]
      omega

/-! ## Claim C5 -/

/-- C5 counterexample: the claim says a positive sample `s` goes to bucket
index `floor(log2 s)` with range `2^i ..= 2^(i+1)-1`, so that samples
`(10, 10, 2000)` flush to a bucket of count 2 with range 8-15 and a bucket
of count 1 with range 1024-2047.  The BCC helper `bpf_log2l` that the
embedded program calls actually returns `floor(log2 s) + 1`, so the code
flushes count 2 with range 16-31 and count 1 with range 2048-4095: not the
claimed buckets. -/
theorem c5_bucketing_counterexample :
    flushPayload (observeAll emptyAccum [10, 10, 2000]) =
      some [⟨16, 31, 2⟩, ⟨2048, 4095, 1⟩] ∧
    some [(⟨16, 31, 2⟩ : Bucket), ⟨2048, 4095, 1⟩] ≠
      some [(⟨8, 15, 2⟩ : Bucket), ⟨1024, 2047, 1⟩] :=
  ⟨by decide, by decide⟩

/-- C5 (amended): a positive latency sample `s` (in microseconds, below
the u64 range) is attributed to map slot `floor(log2 s) + 1`, a
zero-valued sample (nonnegative by unsignedness) is attributed to slot 1;
the bucket reported for a non-empty slot `i` has
`range_start_us = 2 ^ i` and `range_end_us = 2 ^ (i+1) - 1`; and the
samples `(10, 10, 2000)` in one window flush to the bucket of index 4
(count 2, range 16-31) and the bucket of index 11 (count 1,
range 2048-4095). -/
theorem c5_bucketing (s : Nat) (hs1 : 1 ≤ s) (hs2 : s < 2 ^ 64) :
    bpf_log2l s = Nat.log2 s + 1 ∧
    bpf_log2l 0 = 1 ∧
    (∀ acc : Accum, ∀ slot : Nat, slot < 64 → acc slot ≠ 0 →
      mkBucket slot (acc slot) ∈ flushBuckets acc) ∧
    (∀ slot cnt : Nat, (mkBucket slot cnt).range_start_us = 2 ^ slot ∧
      (mkBucket slot cnt).range_end_us = 2 ^ (slot + 1) - 1) ∧
    flushPayload (observeAll emptyAccum [10, 10, 2000]) =
      some [⟨16, 31, 2⟩, ⟨2048, 4095, 1⟩] := by
  refine ⟨bpf_log2l_eq s hs1 hs2, by decide, ?_,
    fun slot cnt => ⟨rfl, rfl⟩, by decide⟩
  intro acc slot h64 hnz
  rw [flushBuckets, List.mem_filterMap]
  exact ⟨slot, List.mem_range.mpr h64, by rw [if_neg hnz]⟩

/-- Witness for C5 at the concrete sample 10: slot `log2 10 + 1`. -/
theorem c5_bucketing_witness :
    1 ≤ 10 ∧ bpf_log2l 10 = Nat.log2 10 + 1 :=
  ⟨by norm_num, (c5_bucketing 10 (by norm_num) (by norm_num)).1⟩

/-! ## Claim C9 -/

/-- C9: a window in which no sample was observed (every slot count of the
accumulator is zero, as after `dist.clear()`) produces no snapshot: the
flush delivers nothing for that window rather than a zero payload. -/
theorem c9_empty_window (acc : Accum) (h : ∀ s, s < 64 → acc s = 0) :
    flushPayload acc = none := by
  have hb : flushBuckets acc = [] := by
    rw [flushBuckets, List.filterMap_eq_nil_iff]
    intro a ha
    rw [List.mem_range] at ha
    rw [h a ha]
    simp
  simp [flushPayload, hb]

/-- Witness for C9 at the freshly cleared accumulator. -/
theorem c9_empty_window_witness : flushPayload emptyAccum = none :=
  c9_empty_window emptyAccum (fun _ _ => rfl)

/-! ## Claim C2 -/

/-- C2 counterexample: the flush in `swaphist.py` is `dist.items()`
followed later by `dist.clear()`, not an atomic snapshot-and-reset.  A
sample incremented by the kernel between the read and the clear is in
neither the completed snapshot nor the next one.  Concretely: observe 10,
read, observe 10 again (between read and clear), clear, then an
empty-window read + clear.  Two samples were observed but the snapshots
deliver a total count of 1, so some window violates the claimed equality
between its bucket-count sum and its observed samples. -/
theorem c2_flush_counterexample :
    deliveredTotal (histRun
      [FlushOp.obs 10, FlushOp.readItems, FlushOp.obs 10, FlushOp.clearMap,
        FlushOp.readItems, FlushOp.clearMap]) = 1 ∧
    obsCount
      [FlushOp.obs 10, FlushOp.readItems, FlushOp.obs 10, FlushOp.clearMap,
        FlushOp.readItems, FlushOp.clearMap] = 2 :=
  ⟨by decide, by decide⟩

/-- C2 (amended): provided no sample lands between the `dist.items()` read
and the `dist.clear()` reset — the flush taken as one atomic step — and
samples stay below the 64-slot cap of the map, the accounting claimed
holds: the flushed snapshot of a window with samples `samples` has
bucket-count sum `samples.length`, and over any run of observations and
atomic flushes the total delivered over all snapshots plus the count still
pending in the map equals the number of samples observed, so no sample is
lost between windows and none is counted in two snapshots. -/
theorem c2_window_accounting (samples : List Nat) (ops : List AggOp)
    (hs : ∀ s ∈ samples, s < 2 ^ 63) (ho : ∀ op ∈ ops, opSmall op = true) :
    snapTotal (flushBuckets (observeAll emptyAccum samples)) = samples.length ∧
    deliveredTotal (aggRun ops) + accTotal (aggRun ops).acc = aggObsCount ops := by
  constructor
  · rw [snapTotal_flushBuckets, accTotal_observeAll samples emptyAccum hs,
      accTotal_emptyAccum]
    omega
  · have h := agg_conservation ops ⟨emptyAccum, []⟩ ho
    rw [aggRun]
    rw [h]
    simp [deliveredTotal, accTotal_emptyAccum]

/-- Witness for C2 at a concrete window (samples 10, 10, 2000) and a
concrete two-window atomic run. -/
theorem c2_window_accounting_witness :
    snapTotal (flushBuckets (observeAll emptyAccum [10, 10, 2000])) = 3 ∧
    deliveredTotal (aggRun [AggOp.obs 10, AggOp.flush, AggOp.obs 7, AggOp.flush])
      + accTotal (aggRun
          [AggOp.obs 10, AggOp.flush, AggOp.obs 7, AggOp.flush]).acc = 2 := by
  have h := c2_window_accounting [10, 10, 2000]
    [AggOp.obs 10, AggOp.flush, AggOp.obs 7, AggOp.flush]
    (by decide) (by decide)
  exact ⟨h.1, h.2⟩

/-! ## Claim C3 -/

/-- C3 counterexample: the claim says any failure, including a non-2xx
response, is logged as a failure.  Neither tracer inspects the status
code: on a 500 response `swaphist.py` logs its success line and
`oom_tracer.py` logs nothing. -/
theorem c3_delivery_counterexample :
    (swaphistDeliver (PostOutcome.resp 500)).loggedFailure = false ∧
    (swaphistDeliver (PostOutcome.resp 500)).loggedSuccess = true ∧
    (oomDeliver (PostOutcome.resp 500)).loggedFailure = false ∧
    (oomDeliver (PostOutcome.resp 500)).loggedSuccess = false :=
  ⟨rfl, rfl, rfl, rfl⟩

/-- C3 (amended): a delivery attempt never raises into the calling
pipeline, and the payload is dropped without retry or queuing whatever
the outcome; when the attempt fails with a requests exception (network
error or timeout) the failure is logged; the blocking time is capped by
the configured 5-second timeout.  A non-2xx response, however, is not
detected as a failure: the payload is likewise dropped without retry,
but `swaphist.py` logs it as a success and `oom_tracer.py` logs
nothing. -/
theorem c3_delivery (o : PostOutcome) :
    ((swaphistDeliver o).raisedToCaller = false ∧
      (swaphistDeliver o).retries = 0 ∧ (swaphistDeliver o).queued = false) ∧
    ((oomDeliver o).raisedToCaller = false ∧
      (oomDeliver o).retries = 0 ∧ (oomDeliver o).queued = false) ∧
    (o = PostOutcome.requestExn →
      (swaphistDeliver o).loggedFailure = true ∧
      (oomDeliver o).loggedFailure = true) ∧
    swaphistTimeoutSeconds = 5 ∧ oomTimeoutSeconds = 5 := by
  cases o with
  | resp s =>
    refine ⟨⟨rfl, rfl, rfl⟩, ⟨rfl, rfl, rfl⟩, fun h => ?_, rfl, rfl⟩
    cases h
  | requestExn =>
    exact ⟨⟨rfl, rfl, rfl⟩, ⟨rfl, rfl, rfl⟩, fun _ => ⟨rfl, rfl⟩, rfl, rfl⟩

/-- Witness for C3 at the concrete failing outcome (a requests
exception, e.g. an unreachable endpoint). -/
theorem c3_delivery_witness :
    (swaphistDeliver PostOutcome.requestExn).raisedToCaller = false ∧
    (swaphistDeliver PostOutcome.requestExn).loggedFailure = true ∧
    (oomDeliver PostOutcome.requestExn).loggedFailure = true :=
  ⟨(c3_delivery PostOutcome.requestExn).1.1,
    ((c3_delivery PostOutcome.requestExn).2.2.1 rfl).1,
    ((c3_delivery PostOutcome.requestExn).2.2.1 rfl).2⟩

theorem pyBytesDecode_ignore_ok (bs : List Nat) :
    pyBytesDecode true bs = Except.ok (utf8Ignore bs).1 := by
  rw [pyBytesDecode]
  simp

theorem cgSubmit_of_startsWith {scope : List Nat} {bootTime : ℚ}
    {ev : CgRawEvent}
    (h : startsWithL (cgDecodePath ev.path) scope = true) :
    cgSubmit scope bootTime ev = CgAction.output
      { event_time := wallClock bootTime ev.ts_ns
        type := if ev.type = 0 then "container_create" else "container_delete"
        cgroup_path := cgDecodePath ev.path
        pid := ev.id
        comm := "unknown"
        reason := cgReason ev.root ev.id ev.level (cgDecodePath ev.path)
          (ev.type == 0) }
      false := by
  simp only [cgSubmit, h, Bool.not_true, Bool.false_eq_true, if_false]

theorem cgSubmit_of_not_startsWith {scope : List Nat} {bootTime : ℚ}
    {ev : CgRawEvent}
    (h : startsWithL (cgDecodePath ev.path) scope = false) :
    cgSubmit scope bootTime ev = CgAction.drop := by
  simp only [cgSubmit, h, Bool.not_false, if_true]

theorem oomSubmit_ok (bootTime : ℚ) (cgpathOf : Nat → List Nat)
    (ev : OomRawEvent) :
    oomSubmit bootTime cgpathOf ev = Except.ok
      { event_time := wallClock bootTime ev.ts_ns
        type := "oom"
        container_id := stripChar 0 (utf8Ignore ev.nsproxy).1
        cgroup_path := cgpathOf ev.tpid
        victim_pid := ev.tpid
        victim_comm := stripChar 0 (utf8Ignore ev.tcomm).1
        trigger_pid := ev.fpid
        trigger_comm := stripChar 0 (utf8Ignore ev.fcomm).1 } := by
  rw [oomSubmit, oomReason]
  simp only [pyBytesDecode_ignore_ok]
  rfl

/-! ## Claim C4 -/

/-- C4 (code bug): out-of-scope events are indeed dropped (last conjunct),
but an in-scope event is NOT delivered to the collector: `submit` builds
the payload and only prints it, because the `requests.post(COLLECTOR,
json=payload, timeout=0.5)` line in `cg_tracer.py` is commented out —
contradicting the module docstring, which says events are sent as JSON to
a configurable HTTP endpoint.  At the failing input (an in-scope
`cgroup_mkdir` event) `submit` produces the payload with
`postedToCollector = false`. -/
theorem c4_scope_filter_code_bug :
    startsWithL (cgDecodePath c4FailingEvent.path)
      (kubeSliceCgroup defaultCgroot defaultKubeSlice) = true ∧
    (∃ p : CgPayload,
      cgSubmit (kubeSliceCgroup defaultCgroot defaultKubeSlice) 0
        c4FailingEvent = CgAction.output p false) ∧
    (∀ (scope : List Nat) (bootTime : ℚ) (ev : CgRawEvent),
      startsWithL (cgDecodePath ev.path) scope = false →
      cgSubmit scope bootTime ev = CgAction.drop) :=
  ⟨by decide, ⟨_, cgSubmit_of_startsWith (by decide)⟩,
    fun _ _ _ h => cgSubmit_of_not_startsWith h⟩

/-- Witness for C4 at a concrete out-of-scope event (a path under
`system.slice`), discharging the hypothesis of the drop direction. -/
theorem c4_scope_filter_code_bug_witness :
    cgSubmit (kubeSliceCgroup defaultCgroot defaultKubeSlice) 0
      { ts_ns := 5, type := 1, root := 0, level := 2, id := 7,
        path := codesOf "/sys/fs/cgroup/system.slice/foo" ++ [0] }
      = CgAction.drop :=
  c4_scope_filter_code_bug.2.2 _ 0 _ (by decide)

/-! ## Claim C8 -/

/-- C8: decoding the fixed-size kernel byte fields never raises into the
pipeline.  `decode(errors="ignore")` succeeds on arbitrary byte contents;
the composed path decode of `cg_tracer.py` succeeds and strips the
trailing NUL padding; `submit` of `oom_tracer.py` always produces a
payload; and `submit` of `cg_tracer.py` always reaches a definite outcome
(drop or payload) whatever the path bytes. -/
theorem c8_decode_never_raises :
    (∀ bs : List Nat, pyBytesDecode true bs = Except.ok (utf8Ignore bs).1) ∧
    (∀ bs : List Nat, cgDecodePathE bs = Except.ok (cgDecodePath bs)) ∧
    (∀ bs : List Nat, cgDecodePath bs ≠ [] →
      (cgDecodePath bs).getLast? ≠ some 0) ∧
    (∀ (bootTime : ℚ) (cgpathOf : Nat → List Nat) (ev : OomRawEvent),
      ∃ p : OomPayload, oomSubmit bootTime cgpathOf ev = Except.ok p) ∧
    (∀ (scope : List Nat) (bootTime : ℚ) (ev : CgRawEvent),
      cgSubmit scope bootTime ev = CgAction.drop ∨
      ∃ p : CgPayload, cgSubmit scope bootTime ev = CgAction.output p false) := by
  refine ⟨pyBytesDecode_ignore_ok, ?_, ?_, ?_, ?_⟩
  · intro bs
    rw [cgDecodePathE, pyBytesDecode_ignore_ok]
    rfl
  · intro bs h
    exact dropTrailing_getLast?_ne 0 _ h
  · intro bootTime cgpathOf ev
    exact ⟨_, oomSubmit_ok bootTime cgpathOf ev⟩
  · intro scope bootTime ev
    cases hsw : startsWithL (cgDecodePath ev.path) scope with
    | false => exact Or.inl (cgSubmit_of_not_startsWith hsw)
    | true => exact Or.inr ⟨_, cgSubmit_of_startsWith hsw⟩

/-- Witness for C8 at concrete malformed bytes: an invalid lead byte is
skipped without an error surfacing, trailing NULs are stripped, and the
OOM submit runs to a payload on garbage fields. -/
theorem c8_decode_never_raises_witness :
    pyBytesDecode true [0xFF, 0x41, 0x00] = Except.ok [0x41, 0x00] ∧
    (cgDecodePath [0x41, 0x00, 0x00]).getLast? ≠ some 0 ∧
    (∃ p : OomPayload, oomSubmit 0 (fun _ => [])
      { ts_ns := 1, fpid := 2, fcomm := [0xFF, 0x61], tpid := 3,
        tcomm := [0x80, 0x41, 0x00], nsproxy := [0xC3] }
      = Except.ok p) := by
  have h := c8_decode_never_raises
  exact ⟨Eq.trans (h.1 [0xFF, 0x41, 0x00]) (by rfl),
    h.2.2.1 [0x41, 0x00, 0x00] (by decide),
    h.2.2.2.1 0 (fun _ => []) _⟩
